import Mathlib

/-!
Verification of the Huefy SDK request-execution and error-classification
pipeline, as implemented in the Go binding (client.go / errors.go) and the
iOS (Swift) binding (HuefyClient.swift / HuefyError.swift).

Conventions of the shallow embedding:
* JSON values are modelled by `JsonVal`; JSON numbers are modelled as
  integers (the only numeric detail field the pipeline reads is the
  integral `retryAfter`, which Go parses as float64 and truncates to int;
  on integral values that conversion is the identity).
* JSON objects / Go `map[string]interface{}` are association lists with
  unique keys; a nil Go map is the empty list.
* The HTTP transport is abstracted as a stream `Nat → Outcome` giving the
  classified result of the n-th attempt (0-based); the retry loops are
  translated as fuel recursion over that stream, returning the result
  together with the number of transport attempts actually made.
-/

/-- A JSON value (numbers restricted to integers, see module comment). -/
inductive JsonVal : Type where
  | str (s : String)
  | num (n : Int)
  | bool (b : Bool)
  | null
  | arr (elems : List JsonVal)
  | obj (fields : List (String × JsonVal))

/-- Go `map[string]interface{}` details payload (nil map = empty list). -/
abbrev GoDetails := List (String × JsonVal)

/-- Lookup in a details map, as Go `details[key]` (keys are unique). -/
def detailsLookup (d : GoDetails) (key : String) : Option JsonVal :=
  (d.find? (fun p => p.1 == key)).map (fun p => p.2)

/-- Go `details[key].(string)` type assertion. -/
def detailsStr (d : GoDetails) (key : String) : Option String :=
  match detailsLookup d key with
  | some (JsonVal.str s) => some s
  | _ => none

/-- Shared fields of Go `HuefyError` (errors.go): code, message, details. -/
structure HuefyErrorBase where
  code : String
  message : String
  details : GoDetails

/-- The Go SDK error type: the dedicated error structs of errors.go (each
embedding a `HuefyError`), the generic `HuefyError` itself, plus plain
`fmt.Errorf` errors and `fmt.Errorf("...: %w", err)` wrapping errors
produced in client.go. -/
inductive GoError : Type where
  | authenticationError (base : HuefyErrorBase)
  | templateNotFoundError (base : HuefyErrorBase) (templateKey : String)
  | invalidTemplateDataError (base : HuefyErrorBase) (validationErrors : List String)
  | invalidRecipientError (base : HuefyErrorBase) (recipient : String)
  | providerError (base : HuefyErrorBase) (provider : String) (providerCode : String)
  | rateLimitError (base : HuefyErrorBase) (retryAfter : Int)
  | networkError (base : HuefyErrorBase)
  | timeoutError (base : HuefyErrorBase)
  | validationError (base : HuefyErrorBase)
  | huefyError (base : HuefyErrorBase)
  | plainError (message : String)
  | wrapped (message : String) (inner : GoError)

/-- errors.go `NewAuthenticationError`. -/
def NewAuthenticationError (message : String) : GoError :=
  GoError.authenticationError ⟨"AUTHENTICATION_FAILED", message, []⟩

/-- errors.go `NewTemplateNotFoundError`. -/
def NewTemplateNotFoundError (templateKey : String) : GoError :=
  GoError.templateNotFoundError
    ⟨"TEMPLATE_NOT_FOUND", "Template not found: " ++ templateKey,
      [("templateKey", JsonVal.str templateKey)]⟩ templateKey

/-- errors.go `NewInvalidTemplateDataError`. -/
def NewInvalidTemplateDataError (message : String) (validationErrors : List String) : GoError :=
  GoError.invalidTemplateDataError
    ⟨"INVALID_TEMPLATE_DATA", message,
      [("validationErrors", JsonVal.arr (validationErrors.map JsonVal.str))]⟩
    validationErrors

/-- errors.go `NewInvalidRecipientError` (the `Recipient` field is left at
its zero value by the source constructor). -/
def NewInvalidRecipientError (message : String) : GoError :=
  GoError.invalidRecipientError ⟨"INVALID_RECIPIENT", message, []⟩ ""

/-- errors.go `NewProviderError`. -/
def NewProviderError (provider providerCode message : String) : GoError :=
  GoError.providerError
    ⟨"PROVIDER_ERROR", message,
      [("provider", JsonVal.str provider), ("providerCode", JsonVal.str providerCode)]⟩
    provider providerCode

/-- errors.go `NewRateLimitError`. -/
def NewRateLimitError (message : String) (retryAfter : Int) : GoError :=
  GoError.rateLimitError
    ⟨"RATE_LIMIT_EXCEEDED", message, [("retryAfter", JsonVal.num retryAfter)]⟩ retryAfter

/-- errors.go `NewNetworkError`. -/
def NewNetworkError (message : String) : GoError :=
  GoError.networkError ⟨"NETWORK_ERROR", message, []⟩

/-- errors.go `NewTimeoutError`. -/
def NewTimeoutError (message : String) : GoError :=
  GoError.timeoutError ⟨"TIMEOUT", message, []⟩

/-- errors.go `NewValidationError`. -/
def NewValidationError (message : String) : GoError :=
  GoError.validationError ⟨"VALIDATION_FAILED", message, []⟩

/-- errors.go `ErrorDetail`: the machine-readable body of an API error. -/
structure ErrorDetail where
  code : String
  message : String
  details : GoDetails

/-- The `templateKey` extraction in the TEMPLATE_NOT_FOUND branch of
`createErrorFromResponse`. -/
def extractTemplateKey (d : GoDetails) : String :=
  match detailsStr d "templateKey" with
  | some tk => tk
  | none => ""

/-- The `validationErrors` extraction in the INVALID_TEMPLATE_DATA branch:
a `[]interface{}` assertion followed by collecting the string elements. -/
def extractValidationErrors (d : GoDetails) : List String :=
  match detailsLookup d "validationErrors" with
  | some (JsonVal.arr elems) =>
      elems.filterMap (fun v => match v with | JsonVal.str s => some s | _ => none)
  | _ => []

/-- The `provider` / `providerCode` extraction in the PROVIDER_ERROR branch
(string type assertions with zero-value fallback). -/
def extractProviderField (d : GoDetails) (key : String) : String :=
  match detailsStr d key with
  | some s => s
  | none => ""

/-- The `retryAfter` extraction in the RATE_LIMIT_EXCEEDED branch (float64
assertion truncated to int; JSON numbers are modelled as integers). -/
def extractRetryAfter (d : GoDetails) : Int :=
  match detailsLookup d "retryAfter" with
  | some (JsonVal.num n) => n
  | _ => 0

/-- errors.go `createErrorFromResponse`: maps a parsed error body to the
dedicated error type for its code, or to a generic `HuefyError` for an
unrecognized code. The HTTP status code argument is unused, as in source. -/
def createErrorFromResponse (errorResp : ErrorDetail) (_statusCode : Nat) : GoError :=
  let code := errorResp.code
  let message := errorResp.message
  let details := errorResp.details
  if code = "AUTHENTICATION_FAILED" then
    GoError.authenticationError ⟨code, message, details⟩
  else if code = "TEMPLATE_NOT_FOUND" then
    GoError.templateNotFoundError ⟨code, message, details⟩ (extractTemplateKey details)
  else if code = "INVALID_TEMPLATE_DATA" then
    GoError.invalidTemplateDataError ⟨code, message, details⟩ (extractValidationErrors details)
  else if code = "INVALID_RECIPIENT" then
    GoError.invalidRecipientError ⟨code, message, details⟩ ""
  else if code = "PROVIDER_ERROR" then
    GoError.providerError ⟨code, message, details⟩
      (extractProviderField details "provider") (extractProviderField details "providerCode")
  else if code = "RATE_LIMIT_EXCEEDED" then
    GoError.rateLimitError ⟨code, message, details⟩ (extractRetryAfter details)
  else if code = "VALIDATION_FAILED" then
    GoError.validationError ⟨code, message, details⟩
  else if code = "TIMEOUT" then
    GoError.timeoutError ⟨code, message, details⟩
  else if code = "NETWORK_ERROR" then
    GoError.networkError ⟨code, message, details⟩
  else
    GoError.huefyError ⟨code, message, details⟩

/-- The set of codes handled by a dedicated branch of
`createErrorFromResponse`. -/
def isHandledGoCode (code : String) : Bool :=
  code == "AUTHENTICATION_FAILED" || code == "TEMPLATE_NOT_FOUND" ||
  code == "INVALID_TEMPLATE_DATA" || code == "INVALID_RECIPIENT" ||
  code == "PROVIDER_ERROR" || code == "RATE_LIMIT_EXCEEDED" ||
  code == "VALIDATION_FAILED" || code == "TIMEOUT" || code == "NETWORK_ERROR"

/-- errors.go `IsValidationError` (type check on the dedicated struct). -/
def IsValidationError : GoError → Bool
  | GoError.validationError _ => true
  | _ => false

/-- errors.go `IsInvalidRecipientError`. -/
def IsInvalidRecipientError : GoError → Bool
  | GoError.invalidRecipientError _ _ => true
  | _ => false

/-- errors.go `IsAuthenticationError`. -/
def IsAuthenticationError : GoError → Bool
  | GoError.authenticationError _ => true
  | _ => false

/-- client.go `isRetryableError`: the Go type switch retries network,
timeout and rate-limit errors, and generic `HuefyError`s carrying a 5xx
server code; everything else (including the dedicated 4xx error structs
and plain wrapped errors) is not retried. -/
def isRetryableError : GoError → Bool
  | GoError.networkError _ => true
  | GoError.timeoutError _ => true
  | GoError.rateLimitError _ _ => true
  | GoError.huefyError base =>
      base.code == "INTERNAL_SERVER_ERROR" || base.code == "SERVICE_UNAVAILABLE" ||
      base.code == "BAD_GATEWAY"
  | _ => false

/-- Result of one transport attempt of the Go client (the classified value
`performRequest` produces for that attempt). -/
inductive GoOutcome (α : Type) : Type where
  | success (value : α)
  | failure (error : GoError)

/-- The retry loop of client.go `doRequest`, as fuel recursion over the
attempt-outcome stream. State: `idx` = attempts already made, `fuel` =
loop iterations remaining, `lastErr` = Go's `lastErr` variable. Returns
the final result and the total number of transport attempts. The
`lastErr == nil` fallback at fuel 0 is unreachable from `doRequest`
(initial fuel is positive) and maps to a placeholder plain error. -/
def doRequestLoop (outcomes : Nat → GoOutcome α) :
    Nat → Nat → Option GoError → Except GoError α × Nat
  | idx, 0, lastErr =>
      (Except.error ((lastErr).getD (GoError.plainError "")), idx)
  | idx, fuel + 1, _lastErr =>
      match outcomes idx with
      | GoOutcome.success v => (Except.ok v, idx + 1)
      | GoOutcome.failure e =>
          if isRetryableError e then
            doRequestLoop outcomes (idx + 1) fuel (some e)
          else
            (Except.error e, idx + 1)

/-- client.go `doRequest`: `for attempt := 0; attempt <= MaxRetries;
attempt++`, i.e. up to `maxRetries + 1` attempts. -/
def doRequest (maxRetries : Nat) (outcomes : Nat → GoOutcome α) :
    Except GoError α × Nat :=
  doRequestLoop outcomes 0 (maxRetries + 1) none

/-- client.go `SendEmailRequest` (Data is a nilable map; Provider an
optional provider string). -/
structure SendEmailRequest where
  templateKey : String
  data : Option GoDetails
  recipient : String
  provider : Option String

/-- client.go `validateSendEmailRequest`, check for check in source
order. `none` means validation passed. Go's
`strings.Contains(recipient, "@")` on a one-character needle is
membership of that character, modelled on the character list. -/
def validateSendEmailRequest (req : SendEmailRequest) : Option GoError :=
  if req.templateKey = "" then
    some (NewValidationError "templateKey is required")
  else if req.recipient = "" then
    some (NewValidationError "recipient is required")
  else if ¬(req.recipient.data.contains '@' ∧ req.recipient.data.contains '.') then
    some (NewInvalidRecipientError ("invalid email address: " ++ req.recipient))
  else if req.data.isNone then
    some (NewValidationError "data is required")
  else
    match req.provider with
    | none => none
    | some p =>
        if p = "ses" ∨ p = "sendgrid" ∨ p = "mailgun" ∨ p = "mailchimp" then none
        else some (NewValidationError ("invalid provider: " ++ p))

/-- client.go `SendEmail`: validate first, only then hand the request to
the retrying transport. The pair's second component counts transport
attempts. -/
def GoSendEmail (req : SendEmailRequest) (maxRetries : Nat)
    (outcomes : Nat → GoOutcome α) : Except GoError α × Nat :=
  match validateSendEmailRequest req with
  | some e => (Except.error e, 0)
  | none => doRequest maxRetries outcomes

/-- The `Error()` string of a Go SDK error: the `HuefyError` rendering
for the taxonomy types, the bare message for plain and wrapping errors
(a wrapping error's message already embeds the inner rendering). -/
def goErrorMessage : GoError → String
  | GoError.authenticationError b => "Huefy API error [" ++ b.code ++ "]: " ++ b.message
  | GoError.templateNotFoundError b _ => "Huefy API error [" ++ b.code ++ "]: " ++ b.message
  | GoError.invalidTemplateDataError b _ => "Huefy API error [" ++ b.code ++ "]: " ++ b.message
  | GoError.invalidRecipientError b _ => "Huefy API error [" ++ b.code ++ "]: " ++ b.message
  | GoError.providerError b _ _ => "Huefy API error [" ++ b.code ++ "]: " ++ b.message
  | GoError.rateLimitError b _ => "Huefy API error [" ++ b.code ++ "]: " ++ b.message
  | GoError.networkError b => "Huefy API error [" ++ b.code ++ "]: " ++ b.message
  | GoError.timeoutError b => "Huefy API error [" ++ b.code ++ "]: " ++ b.message
  | GoError.validationError b => "Huefy API error [" ++ b.code ++ "]: " ++ b.message
  | GoError.huefyError b => "Huefy API error [" ++ b.code ++ "]: " ++ b.message
  | GoError.plainError m => m
  | GoError.wrapped m _ => m

/-- The validation loop of client.go `SendBulkEmails`: index and error of
the first invalid item, scanning in order. -/
def firstInvalid : List SendEmailRequest → Nat → Option (Nat × GoError)
  | [], _ => none
  | req :: rest, i =>
      match validateSendEmailRequest req with
      | some e => some (i, e)
      | none => firstInvalid rest (i + 1)

/-- client.go `SendBulkEmails`: reject an empty slice, reject the first
invalid item with a `fmt.Errorf("validation failed for email %d: %w", i,
err)` wrapping error, otherwise perform the bulk request. -/
def GoSendBulkEmails (emails : List SendEmailRequest) (maxRetries : Nat)
    (outcomes : Nat → GoOutcome α) : Except GoError α × Nat :=
  if emails.isEmpty then
    (Except.error (NewValidationError "emails slice cannot be empty"), 0)
  else
    match firstInvalid emails 0 with
    | some (i, e) =>
        (Except.error (GoError.wrapped
          ("validation failed for email " ++ toString i ++ ": " ++ goErrorMessage e) e), 0)
    | none => doRequest maxRetries outcomes

/-- The response-handling tail of client.go `performRequest` (after the
body has been read): `parsed` abstracts `json.Unmarshal` of the body into
`ErrorResponse`, `decoded` abstracts `json.Unmarshal` into the success
shape (`Except.error` carrying the JSON error text). Statuses below 400
skip error classification entirely. -/
def goHandleResponse (statusCode : Nat) (parsed : Option ErrorDetail) (rawBody : String)
    (decoded : Except String α) : Except GoError α :=
  if 400 ≤ statusCode then
    match parsed with
    | some d => Except.error (createErrorFromResponse d statusCode)
    | none =>
        Except.error (createErrorFromResponse
          ⟨"HTTP_" ++ toString statusCode, rawBody, []⟩ statusCode)
  else
    match decoded with
    | Except.ok v => Except.ok v
    | Except.error msg => Except.error (GoError.plainError ("failed to unmarshal response: " ++ msg))

/-- HuefyError.swift: the iOS binding's error enum. The associated Swift
`Error` payloads of `networkError`, `decodingError` and `encodingError`
are modelled as opaque description strings; `TimeInterval` as `ℚ`; the
`[String: Any]?` validation details as an optional JSON object. -/
inductive IOSHuefyError : Type where
  | invalidApiKey
  | invalidURL
  | networkError (err : String)
  | decodingError (err : String)
  | encodingError (err : String)
  | templateNotFound (templateKey : String)
  | validationError (message : String) (details : Option (List (String × JsonVal)))
  | rateLimitExceeded (retryAfter : Option ℚ)
  | providerError (provider : String) (code : Option String)
  | serverError (statusCode : Int) (message : Option String)
  | unknown (message : String)

/-- The custom `==` of HuefyError.swift, clause for clause: the listed
case pairs compare their payloads (the validation `details` payload is not
compared), every other pair — including the `networkError`,
`decodingError` and `encodingError` cases, even against themselves —
falls to the `default: return false` clause. -/
def iosHuefyErrorEq : IOSHuefyError → IOSHuefyError → Bool
  | IOSHuefyError.invalidApiKey, IOSHuefyError.invalidApiKey => true
  | IOSHuefyError.invalidURL, IOSHuefyError.invalidURL => true
  | IOSHuefyError.templateNotFound k1, IOSHuefyError.templateNotFound k2 => k1 == k2
  | IOSHuefyError.validationError m1 _, IOSHuefyError.validationError m2 _ => m1 == m2
  | IOSHuefyError.rateLimitExceeded r1, IOSHuefyError.rateLimitExceeded r2 => r1 == r2
  | IOSHuefyError.providerError p1 c1, IOSHuefyError.providerError p2 c2 =>
      p1 == p2 && c1 == c2
  | IOSHuefyError.serverError s1 m1, IOSHuefyError.serverError s2 m2 =>
      s1 == s2 && m1 == m2
  | IOSHuefyError.unknown m1, IOSHuefyError.unknown m2 => m1 == m2
  | _, _ => false

/-- The cases whose payload is an opaque Swift `Error`: these reach the
`default` clause of `==` even when compared with themselves. -/
def iosOpaqueCase : IOSHuefyError → Bool
  | IOSHuefyError.networkError _ => true
  | IOSHuefyError.decodingError _ => true
  | IOSHuefyError.encodingError _ => true
  | _ => false

/-- Erase the payload that `==` ignores: the `details` of
`validationError`. Used to characterize `==` exactly. -/
def iosEraseIgnored : IOSHuefyError → IOSHuefyError
  | IOSHuefyError.validationError m _ => IOSHuefyError.validationError m none
  | e => e

/-- An error thrown inside the iOS `performRequest` loop: either a
`HuefyError` (matched by the first catch) or any other Swift error
(matched by the generic catch), modelled opaquely. -/
inductive SwiftError : Type where
  | huefy (e : IOSHuefyError)
  | other (description : String)

/-- Result of one `executeRequest` call (one transport attempt) in the
iOS binding. -/
inductive SwiftOutcome (α : Type) : Type where
  | success (value : α)
  | failure (e : SwiftError)

/-- One complete run of the iOS `performRequest` loop: final result,
number of transport attempts made, and the backoff delays (in seconds,
exact rationals) slept between attempts, in order. -/
structure SwiftRun (α : Type) where
  result : Except SwiftError α
  attempts : Nat
  delays : List ℚ

/-- The 4xx cases the iOS loop refuses to retry (`case .invalidApiKey,
.templateNotFound, .validationError: throw error`). -/
def iosNonRetryable : IOSHuefyError → Bool
  | IOSHuefyError.invalidApiKey => true
  | IOSHuefyError.templateNotFound _ => true
  | IOSHuefyError.validationError _ _ => true
  | _ => false

/-- Whether a thrown error makes the iOS loop continue: any non-Huefy
error, and any `HuefyError` outside the three listed cases. -/
def swiftRetryable : SwiftError → Bool
  | SwiftError.huefy e => !(iosNonRetryable e)
  | SwiftError.other _ => true

/-- The `while attempt < retryAttempts` loop of HuefyClient.swift
`performRequest`, as fuel recursion over the attempt-outcome stream.
State: `idx` = attempts already made (Swift's `attempt` counter at loop
entry), `fuel` = iterations remaining, `lastError` and `delays` the
accumulated state. After a retried failure the loop sleeps
`retryDelay * pow(2, attempt - 1)` seconds, but only when another
iteration follows (`if attempt < retryAttempts`, with `attempt` already
incremented to `idx + 1`), which in fuel form is `0 < fuel'` for the
remaining fuel. When the fuel runs out the loop throws `lastError` if
set, else `HuefyError.unknown("Request failed after \(retryAttempts)
attempts")`. -/
def iosLoop (retryDelay : ℚ) (retryAttempts : Int) (outcomes : Nat → SwiftOutcome α) :
    Nat → Nat → Option SwiftError → List ℚ → SwiftRun α
  | idx, 0, lastError, delays =>
      ⟨Except.error ((lastError).getD (SwiftError.huefy (IOSHuefyError.unknown
          ("Request failed after " ++ toString retryAttempts ++ " attempts")))),
        idx, delays⟩
  | idx, fuel + 1, _lastError, delays =>
      match outcomes idx with
      | SwiftOutcome.success v => ⟨Except.ok v, idx + 1, delays⟩
      | SwiftOutcome.failure e =>
          if swiftRetryable e then
            iosLoop retryDelay retryAttempts outcomes (idx + 1) fuel (some e)
              (if 0 < fuel then delays ++ [retryDelay * 2 ^ idx] else delays)
          else
            ⟨Except.error e, idx + 1, delays⟩

/-- HuefyClient.swift `performRequest`: run the loop with `attempt = 0`,
no `lastError`, and `retryAttempts` iterations of fuel (none when the
configured value is zero or negative, since `while 0 < retryAttempts`
fails immediately). -/
def iosPerformRequest (retryDelay : ℚ) (retryAttempts : Int)
    (outcomes : Nat → SwiftOutcome α) : SwiftRun α :=
  iosLoop retryDelay retryAttempts outcomes 0 retryAttempts.toNat none []

/-- HuefyClient.swift `SendEmailResponse` (`Date` modelled as an epoch
offset in `ℚ`). -/
structure IOSSendEmailResponse where
  messageId : String
  provider : String
  status : String
  timestamp : ℚ

/-- HuefyClient.swift `sendEmail`: constructs a `SendEmailRequest` from
its arguments and hands it directly to `performRequest` — the iOS binding
performs no client-side validation of the template key, data, recipient
or provider. The request fields only shape the wire body, which the
outcome stream abstracts, so the run is that of `performRequest`. -/
def iosSendEmail (retryDelay : ℚ) (retryAttempts : Int)
    (_templateKey : String) (_data : List (String × JsonVal)) (_recipient : String)
    (_provider : Option String)
    (outcomes : Nat → SwiftOutcome IOSSendEmailResponse) : SwiftRun IOSSendEmailResponse :=
  iosPerformRequest retryDelay retryAttempts outcomes

/-- HuefyClient.swift `healthCheck` (GET /health through `performRequest`;
the response type is abstracted). -/
def iosHealthCheck (retryDelay : ℚ) (retryAttempts : Int)
    (outcomes : Nat → SwiftOutcome α) : SwiftRun α :=
  iosPerformRequest retryDelay retryAttempts outcomes

/-- The backoff schedule of the iOS loop: the delay slept before retry
`n` (that is, between attempt `n` and attempt `n + 1`, `n ≥ 1`) is
`retryDelay * pow(2.0, Double(attempt - 1))` with `attempt = n`. -/
def iosDelayBeforeRetry (retryDelay : ℚ) (n : Nat) : ℚ :=
  retryDelay * 2 ^ (n - 1)

/-- Modelled from the spec: the retry schedule stated in §4.3 —
"delay before attempt n (n≥1) is min(baseDelay * multiplier^(n-1),
maxDelay)". Stated for comparison with the schedules the code implements. -/
def specBackoffDelay (baseDelay multiplier maxDelay : ℚ) (n : Nat) : ℚ :=
  min (baseDelay * multiplier ^ (n - 1)) maxDelay

/-! ### Helper lemmas (shared) -/

/-- Collecting the string elements of a list built from strings returns
the original list. -/
lemma filterMap_str_map (l : List String) :
    (l.map JsonVal.str).filterMap
      (fun v => match v with | JsonVal.str s => some s | _ => none) = l := by
  induction l with
  | nil => rfl
  | cons x xs ih => simp [List.filterMap_cons, ih]

/-- A string starting with `HTTP_` differs from any string whose first
character is not `H`. -/
lemma httpPrefix_ne (s t : String) (h : t.data.head? ≠ some 'H') : ("HTTP_" ++ s) ≠ t := by
  intro he
  apply h
  rw [← he]
  rfl

/-- Synthesized `HTTP_<status>` codes are never in the handled-code set. -/
lemma isHandledGoCode_httpPrefix (s : String) : isHandledGoCode ("HTTP_" ++ s) = false := by
  have hb : ∀ t : String, t.data.head? ≠ some 'H' → (("HTTP_" ++ s) == t) = false := by
    intro t ht
    exact beq_eq_false_iff_ne.mpr (httpPrefix_ne s t ht)
  unfold isHandledGoCode
  rw [hb "AUTHENTICATION_FAILED" (by decide), hb "TEMPLATE_NOT_FOUND" (by decide),
    hb "INVALID_TEMPLATE_DATA" (by decide), hb "INVALID_RECIPIENT" (by decide),
    hb "PROVIDER_ERROR" (by decide), hb "RATE_LIMIT_EXCEEDED" (by decide),
    hb "VALIDATION_FAILED" (by decide), hb "TIMEOUT" (by decide),
    hb "NETWORK_ERROR" (by decide)]
  rfl

/-- On a code outside the handled set, `createErrorFromResponse` returns
the generic `HuefyError` carrying the original code, message and details. -/
lemma createError_unhandled (ed : ErrorDetail) (sc : Nat)
    (h : isHandledGoCode ed.code = false) :
    createErrorFromResponse ed sc = GoError.huefyError ⟨ed.code, ed.message, ed.details⟩ := by
  simp only [isHandledGoCode, Bool.or_eq_false_iff, beq_eq_false_iff_ne] at h
  obtain ⟨⟨⟨⟨⟨⟨⟨⟨h1, h2⟩, h3⟩, h4⟩, h5⟩, h6⟩, h7⟩, h8⟩, h9⟩ := h
  simp [createErrorFromResponse, h1, h2, h3, h4, h5, h6, h7, h8, h9]

/-! ### C6: classifier round-trip over the error taxonomy -/

/-- C6: for every member of the Go error taxonomy, classifying the error
body that member's constructor produces (its code, message and details,
including templateKey, validationErrors, provider/providerCode and
retryAfter payloads) yields exactly that member with all fields
preserved; and for every code outside the handled set, classification
yields the generic `HuefyError` still carrying the original code,
message and details. -/
theorem classifier_roundtrip_taxonomy_c6
    (sc : Nat) (msg tk provider providerCode otherMsg : String)
    (ves : List String) (ra : Int) (code : String) (d : GoDetails)
    (hcode : isHandledGoCode code = false) :
    createErrorFromResponse ⟨"AUTHENTICATION_FAILED", msg, []⟩ sc
        = NewAuthenticationError msg ∧
    createErrorFromResponse
        ⟨"TEMPLATE_NOT_FOUND", "Template not found: " ++ tk,
          [("templateKey", JsonVal.str tk)]⟩ sc
        = NewTemplateNotFoundError tk ∧
    createErrorFromResponse
        ⟨"INVALID_TEMPLATE_DATA", msg,
          [("validationErrors", JsonVal.arr (ves.map JsonVal.str))]⟩ sc
        = NewInvalidTemplateDataError msg ves ∧
    createErrorFromResponse ⟨"INVALID_RECIPIENT", msg, []⟩ sc
        = NewInvalidRecipientError msg ∧
    createErrorFromResponse
        ⟨"PROVIDER_ERROR", msg,
          [("provider", JsonVal.str provider), ("providerCode", JsonVal.str providerCode)]⟩ sc
        = NewProviderError provider providerCode msg ∧
    createErrorFromResponse
        ⟨"RATE_LIMIT_EXCEEDED", msg, [("retryAfter", JsonVal.num ra)]⟩ sc
        = NewRateLimitError msg ra ∧
    createErrorFromResponse ⟨"VALIDATION_FAILED", msg, []⟩ sc = NewValidationError msg ∧
    createErrorFromResponse ⟨"TIMEOUT", msg, []⟩ sc = NewTimeoutError msg ∧
    createErrorFromResponse ⟨"NETWORK_ERROR", msg, []⟩ sc = NewNetworkError msg ∧
    createErrorFromResponse ⟨code, otherMsg, d⟩ sc = GoError.huefyError ⟨code, otherMsg, d⟩ := by
  refine ⟨rfl, rfl, ?_, rfl, rfl, rfl, rfl, rfl, rfl, ?_⟩
  · exact congrArg (GoError.invalidTemplateDataError _) (filterMap_str_map ves)
  · exact createError_unhandled ⟨code, otherMsg, d⟩ sc hcode

/-- Witness for C6 at concrete inputs (unrecognized code
`"QUOTA_EXCEEDED"`). -/
theorem classifier_roundtrip_taxonomy_c6_witness :
    createErrorFromResponse ⟨"AUTHENTICATION_FAILED", "m", []⟩ 401
        = NewAuthenticationError "m" ∧
    createErrorFromResponse
        ⟨"TEMPLATE_NOT_FOUND", "Template not found: " ++ "welcome-email",
          [("templateKey", JsonVal.str "welcome-email")]⟩ 401
        = NewTemplateNotFoundError "welcome-email" ∧
    createErrorFromResponse
        ⟨"INVALID_TEMPLATE_DATA", "m",
          [("validationErrors", JsonVal.arr (["name is required"].map JsonVal.str))]⟩ 401
        = NewInvalidTemplateDataError "m" ["name is required"] ∧
    createErrorFromResponse ⟨"INVALID_RECIPIENT", "m", []⟩ 401
        = NewInvalidRecipientError "m" ∧
    createErrorFromResponse
        ⟨"PROVIDER_ERROR", "m",
          [("provider", JsonVal.str "ses"), ("providerCode", JsonVal.str "THROTTLED")]⟩ 401
        = NewProviderError "ses" "THROTTLED" "m" ∧
    createErrorFromResponse
        ⟨"RATE_LIMIT_EXCEEDED", "m", [("retryAfter", JsonVal.num 60)]⟩ 401
        = NewRateLimitError "m" 60 ∧
    createErrorFromResponse ⟨"VALIDATION_FAILED", "m", []⟩ 401 = NewValidationError "m" ∧
    createErrorFromResponse ⟨"TIMEOUT", "m", []⟩ 401 = NewTimeoutError "m" ∧
    createErrorFromResponse ⟨"NETWORK_ERROR", "m", []⟩ 401 = NewNetworkError "m" ∧
    createErrorFromResponse ⟨"QUOTA_EXCEEDED", "quota", []⟩ 401
        = GoError.huefyError ⟨"QUOTA_EXCEEDED", "quota", []⟩ :=
  classifier_roundtrip_taxonomy_c6 401 "m" "welcome-email" "ses" "THROTTLED"
    "quota" ["name is required"] 60 "QUOTA_EXCEEDED" [] (by decide)

/-! ### C7: synthesized `HTTP_<status>` fallback error -/

/-- C7 (amended to status ≥ 400): for every response with status code at
least 400 whose body does not parse as an error object, the Go client
synthesizes a generic error whose code is `"HTTP_"` followed by the
status code and whose message is the raw response body. -/
theorem http_fallback_generic_error_c7 {α : Type} (sc : Nat) (rawBody : String)
    (decoded : Except String α) (h : 400 ≤ sc) :
    goHandleResponse sc none rawBody decoded =
      Except.error (GoError.huefyError ⟨"HTTP_" ++ toString sc, rawBody, []⟩) := by
  unfold goHandleResponse
  rw [if_pos h]
  exact congrArg Except.error
    (createError_unhandled ⟨"HTTP_" ++ toString sc, rawBody, []⟩ sc
      (isHandledGoCode_httpPrefix (toString sc)))

/-- Witness for C7: a 503 with an HTML body yields the generic
`HTTP_503` error carrying the raw body. -/
theorem http_fallback_generic_error_c7_witness :
    goHandleResponse 503 none "Service Unavailable" (Except.error "bad json" : Except String Unit) =
      Except.error (GoError.huefyError ⟨"HTTP_503", "Service Unavailable", []⟩) := by
  have h := http_fallback_generic_error_c7 (α := Unit) 503 "Service Unavailable"
    (Except.error "bad json") (by decide)
  simpa using h

/-- Counterexample to C7 as stated: a 304 response is non-2xx, but the
code only classifies statuses ≥ 400; with an unparseable body the call
returns the success-decoding failure, not a generic `HTTP_304` error. -/
theorem http_fallback_generic_error_c7_counterexample :
    goHandleResponse 304 none "not json" (Except.error "invalid character" : Except String Unit) =
      Except.error (GoError.plainError "failed to unmarshal response: invalid character") ∧
    GoError.plainError "failed to unmarshal response: invalid character" ≠
      GoError.huefyError ⟨"HTTP_" ++ toString (304 : Nat), "not json", []⟩ := by
  exact ⟨rfl, by simp⟩

/-! ### C1: client-side validation before any network call -/

/-- C1 (amended to the Go binding; the iOS binding does not validate, see
the counterexample): Go client-side validation succeeds exactly when the
template key and recipient are non-empty, the recipient contains both
`@` and `.`, the data map is present, and any given provider is one of
ses, sendgrid, mailgun, mailchimp; every validation failure makes
`SendEmail` return the validation error with zero transport attempts,
and the failing error is a `ValidationError` or (for the email-shape
check specifically) an `InvalidRecipientError`. -/
theorem clientside_validation_c1 {α : Type} (req : SendEmailRequest) (maxRetries : Nat)
    (outcomes : Nat → GoOutcome α) :
    (validateSendEmailRequest req = none ↔
      (req.templateKey ≠ "" ∧ req.recipient ≠ "" ∧
        req.recipient.data.contains '@' = true ∧ req.recipient.data.contains '.' = true ∧
        req.data ≠ none ∧
        ∀ p, req.provider = some p →
          (p = "ses" ∨ p = "sendgrid" ∨ p = "mailgun" ∨ p = "mailchimp"))) ∧
    (∀ e, validateSendEmailRequest req = some e →
      GoSendEmail req maxRetries outcomes = (Except.error e, 0) ∧
      (IsValidationError e = true ∨ IsInvalidRecipientError e = true)) ∧
    (req.templateKey ≠ "" → req.recipient ≠ "" →
      ¬(req.recipient.data.contains '@' = true ∧ req.recipient.data.contains '.' = true) →
      validateSendEmailRequest req =
        some (NewInvalidRecipientError ("invalid email address: " ++ req.recipient))) := by
  refine ⟨⟨?_, ?_⟩, ?_, ?_⟩
  · intro h
    unfold validateSendEmailRequest at h
    by_cases h1 : req.templateKey = ""
    · rw [if_pos h1] at h
      exact Option.noConfusion h
    rw [if_neg h1] at h
    by_cases h2 : req.recipient = ""
    · rw [if_pos h2] at h
      exact Option.noConfusion h
    rw [if_neg h2] at h
    by_cases h3 : req.recipient.data.contains '@' = true ∧ req.recipient.data.contains '.' = true
    case neg =>
      rw [if_pos h3] at h
      exact Option.noConfusion h
    rw [if_neg (not_not_intro h3)] at h
    by_cases h4 : req.data.isNone = true
    · rw [if_pos h4] at h
      exact Option.noConfusion h
    rw [if_neg h4] at h
    refine ⟨h1, h2, h3.1, h3.2, ?_, ?_⟩
    · intro hd
      apply h4
      rw [hd]
      rfl
    · intro p hp
      rw [hp] at h
      by_contra hm
      change (if p = "ses" ∨ p = "sendgrid" ∨ p = "mailgun" ∨ p = "mailchimp" then none
        else some (NewValidationError ("invalid provider: " ++ p))) = none at h
      rw [if_neg hm] at h
      exact Option.noConfusion h
  · intro hall
    obtain ⟨h1, h2, h3, h4, h5, h6⟩ := hall
    unfold validateSendEmailRequest
    rw [if_neg h1, if_neg h2, if_neg (not_not_intro ⟨h3, h4⟩),
      if_neg (by simp [Option.isNone_iff_eq_none, h5])]
    cases hp : req.provider with
    | none => rfl
    | some p =>
        change (if p = "ses" ∨ p = "sendgrid" ∨ p = "mailgun" ∨ p = "mailchimp" then none
          else some (NewValidationError ("invalid provider: " ++ p))) = none
        rw [if_pos (h6 p hp)]
  · intro e he
    refine ⟨by simp [GoSendEmail, he], ?_⟩
    unfold validateSendEmailRequest at he
    by_cases h1 : req.templateKey = ""
    · rw [if_pos h1] at he
      cases he
      exact Or.inl rfl
    rw [if_neg h1] at he
    by_cases h2 : req.recipient = ""
    · rw [if_pos h2] at he
      cases he
      exact Or.inl rfl
    rw [if_neg h2] at he
    by_cases h3 : req.recipient.data.contains '@' = true ∧ req.recipient.data.contains '.' = true
    case neg =>
      rw [if_pos h3] at he
      cases he
      exact Or.inr rfl
    rw [if_neg (not_not_intro h3)] at he
    by_cases h4 : req.data.isNone = true
    · rw [if_pos h4] at he
      cases he
      exact Or.inl rfl
    rw [if_neg h4] at he
    cases hp : req.provider with
    | none =>
        rw [hp] at he
        exact Option.noConfusion he
    | some p =>
        rw [hp] at he
        change (if p = "ses" ∨ p = "sendgrid" ∨ p = "mailgun" ∨ p = "mailchimp" then none
          else some (NewValidationError ("invalid provider: " ++ p))) = some e at he
        by_cases hm : p = "ses" ∨ p = "sendgrid" ∨ p = "mailgun" ∨ p = "mailchimp"
        · rw [if_pos hm] at he
          exact Option.noConfusion he
        · rw [if_neg hm] at he
          cases he
          exact Or.inl rfl
  · intro h1 h2 h3
    unfold validateSendEmailRequest
    rw [if_neg h1, if_neg h2, if_pos h3]

/-- Witness for C1: the recipient `"not-an-email"` fails the email-shape
check with an `InvalidRecipientError` and zero transport attempts. -/
theorem clientside_validation_c1_witness :
    GoSendEmail ⟨"welcome-email", some [("name", JsonVal.str "John")], "not-an-email", none⟩ 3
        (fun _ => GoOutcome.success ()) =
      (Except.error (NewInvalidRecipientError "invalid email address: not-an-email"), 0) ∧
    (IsValidationError (NewInvalidRecipientError "invalid email address: not-an-email") = true ∨
      IsInvalidRecipientError (NewInvalidRecipientError "invalid email address: not-an-email")
        = true) := by
  have h := (clientside_validation_c1
    ⟨"welcome-email", some [("name", JsonVal.str "John")], "not-an-email", none⟩ 3
    (fun _ => GoOutcome.success ())).2.1
    (NewInvalidRecipientError "invalid email address: not-an-email") rfl
  simpa using h

/-- Counterexample to C1 as stated: the iOS `sendEmail` performs no
client-side validation — with the invalid recipient `"not-an-email"` it
still performs a transport attempt (here one attempt that even succeeds),
not the claimed zero attempts with a local `ValidationError`. -/
theorem clientside_validation_c1_counterexample :
    iosSendEmail 1 3 "welcome-email" [("name", JsonVal.str "John")] "not-an-email" none
        (fun _ => SwiftOutcome.success ⟨"msg-123", "ses", "sent", 0⟩) =
      ⟨Except.ok ⟨"msg-123", "ses", "sent", 0⟩, 1, []⟩ ∧ (1 : Nat) ≠ 0 :=
  ⟨rfl, by decide⟩

/-! ### C10: the custom equality on the iOS HuefyError enum -/

/-- C10 (amended): `==` on the iOS HuefyError returns false whenever
either side is a `networkError`, `decodingError` or `encodingError` —
including a value compared with itself, so it is not reflexive there —
and on the remaining cases it is structural equality except that
`validationError` compares only the message, ignoring the details
payload. Precisely: `x == y` holds iff neither side is an opaque-payload
case and `x` and `y` agree after erasing the ignored details payload. -/
theorem ios_error_equality_c10 :
    (∀ s t, iosHuefyErrorEq (IOSHuefyError.networkError s)
      (IOSHuefyError.networkError t) = false) ∧
    (∀ s t, iosHuefyErrorEq (IOSHuefyError.decodingError s)
      (IOSHuefyError.decodingError t) = false) ∧
    (∀ s t, iosHuefyErrorEq (IOSHuefyError.encodingError s)
      (IOSHuefyError.encodingError t) = false) ∧
    (∀ x y, iosHuefyErrorEq x y = true ↔
      (iosOpaqueCase x = false ∧ iosOpaqueCase y = false ∧
        iosEraseIgnored x = iosEraseIgnored y)) := by
  refine ⟨fun s t => rfl, fun s t => rfl, fun s t => rfl, fun x y => ?_⟩
  cases x <;> cases y <;>
    simp [iosHuefyErrorEq, iosOpaqueCase, iosEraseIgnored]

/-- Counterexample to C10 as stated: on the `validationError` case `==`
is not a proper structural equality — two values with the same message
but different details payloads compare equal. -/
theorem ios_error_equality_c10_counterexample :
    iosHuefyErrorEq (IOSHuefyError.validationError "Invalid" none)
        (IOSHuefyError.validationError "Invalid"
          (some [("field", JsonVal.str "email")])) = true ∧
    IOSHuefyError.validationError "Invalid" none ≠
      IOSHuefyError.validationError "Invalid" (some [("field", JsonVal.str "email")]) :=
  ⟨rfl, by simp⟩

/-! ### Retry-loop invariants (shared helper lemmas) -/

/-- Invariant of the Go retry loop: either no attempt has been made yet,
or the recorded last error is the failure of the most recent attempt. -/
def goLoopInv (outcomes : Nat → GoOutcome α) (idx : Nat) (lastErr : Option GoError) : Prop :=
  (idx = 0 ∧ lastErr = none) ∨
    (∃ e', lastErr = some e' ∧ 1 ≤ idx ∧ outcomes (idx - 1) = GoOutcome.failure e')

/-- Master lemma for the Go retry loop: attempt-count bounds and
last-attempt error propagation. -/
lemma doRequestLoop_spec (outcomes : Nat → GoOutcome α) :
    ∀ (fuel idx : Nat) (lastErr : Option GoError),
      goLoopInv outcomes idx lastErr →
      idx ≤ (doRequestLoop outcomes idx fuel lastErr).2 ∧
      (doRequestLoop outcomes idx fuel lastErr).2 ≤ idx + fuel ∧
      (1 ≤ fuel → idx + 1 ≤ (doRequestLoop outcomes idx fuel lastErr).2) ∧
      (∀ e, (doRequestLoop outcomes idx fuel lastErr).1 = Except.error e →
        1 ≤ (doRequestLoop outcomes idx fuel lastErr).2 →
        outcomes ((doRequestLoop outcomes idx fuel lastErr).2 - 1) = GoOutcome.failure e) := by
  intro fuel
  induction fuel with
  | zero =>
      intro idx lastErr hinv
      refine ⟨Nat.le_refl idx, Nat.le_add_right idx 0, fun h => absurd h (by omega), ?_⟩
      intro e he hn
      simp only [doRequestLoop] at he hn ⊢
      rcases hinv with ⟨hidx, _⟩ | ⟨e', hle, hidx, hout⟩
      · omega
      · rw [hle] at he
        simp only [Option.getD_some, Except.error.injEq] at he
        rw [← he]
        exact hout
  | succ fuel ih =>
      intro idx lastErr hinv
      simp only [doRequestLoop]
      cases ho : outcomes idx with
      | success v =>
          dsimp only
          refine ⟨Nat.le_succ idx, by omega, fun _ => Nat.le_refl _, ?_⟩
          intro e he
          exact absurd he (by simp)
      | failure e =>
          dsimp only
          by_cases hr : isRetryableError e = true
          · rw [if_pos hr]
            have hinv2 : goLoopInv outcomes (idx + 1) (some e) :=
              Or.inr ⟨e, rfl, by omega, by simpa using ho⟩
            have h := ih (idx + 1) (some e) hinv2
            refine ⟨by omega, by omega, fun _ => by omega, h.2.2.2⟩
          · rw [if_neg hr]
            refine ⟨Nat.le_succ idx, by omega, fun _ => Nat.le_refl _, ?_⟩
            intro e2 he2 _
            simp only [Except.error.injEq] at he2
            rw [← he2]
            simpa using ho

/-- Invariant of the iOS retry loop: either no attempt has been made yet,
or the recorded last error is the failure of the most recent attempt. -/
def iosLoopInv (outcomes : Nat → SwiftOutcome α) (idx : Nat) (lastError : Option SwiftError) :
    Prop :=
  (idx = 0 ∧ lastError = none) ∨
    (∃ e', lastError = some e' ∧ 1 ≤ idx ∧ outcomes (idx - 1) = SwiftOutcome.failure e')

/-- Master lemma for the iOS retry loop: attempt-count bounds, the exact
backoff-delay schedule, and last-attempt error propagation. -/
lemma iosLoop_spec (rd : ℚ) (ra : Int) (outcomes : Nat → SwiftOutcome α) :
    ∀ (fuel idx : Nat) (lastError : Option SwiftError) (delays : List ℚ),
      iosLoopInv outcomes idx lastError →
      idx ≤ (iosLoop rd ra outcomes idx fuel lastError delays).attempts ∧
      (iosLoop rd ra outcomes idx fuel lastError delays).attempts ≤ idx + fuel ∧
      (1 ≤ fuel → idx + 1 ≤ (iosLoop rd ra outcomes idx fuel lastError delays).attempts) ∧
      (iosLoop rd ra outcomes idx fuel lastError delays).delays =
        delays ++ (List.range' idx
          ((iosLoop rd ra outcomes idx fuel lastError delays).attempts - 1 - idx)).map
          (fun j => rd * 2 ^ j) ∧
      (∀ e, (iosLoop rd ra outcomes idx fuel lastError delays).result = Except.error e →
        1 ≤ (iosLoop rd ra outcomes idx fuel lastError delays).attempts →
        outcomes ((iosLoop rd ra outcomes idx fuel lastError delays).attempts - 1) =
          SwiftOutcome.failure e) := by
  intro fuel
  induction fuel with
  | zero =>
      intro idx lastError delays hinv
      refine ⟨Nat.le_refl idx, Nat.le_add_right idx 0, fun h => absurd h (by omega), ?_, ?_⟩
      · simp [iosLoop]
      · intro e he hn
        simp only [iosLoop] at he hn ⊢
        rcases hinv with ⟨hidx, _⟩ | ⟨e', hle, hidx, hout⟩
        · omega
        · rw [hle] at he
          simp only [Option.getD_some, Except.error.injEq] at he
          rw [← he]
          exact hout
  | succ fuel ih =>
      intro idx lastError delays hinv
      simp only [iosLoop]
      cases ho : outcomes idx with
      | success v =>
          dsimp only
          refine ⟨Nat.le_succ idx, by exact Nat.add_le_add_left (by omega) idx,
            fun _ => Nat.le_refl _, by simp, ?_⟩
          intro e he
          exact absurd he (by simp)
      | failure e =>
          dsimp only
          by_cases hr : swiftRetryable e = true
          · rw [if_pos hr]
            have hinv2 : iosLoopInv outcomes (idx + 1) (some e) :=
              Or.inr ⟨e, rfl, by omega, by simpa using ho⟩
            by_cases hf : 0 < fuel
            · rw [if_pos hf]
              have h := ih (idx + 1) (some e) (delays ++ [rd * 2 ^ idx]) hinv2
              refine ⟨by omega, by omega, fun _ => by omega, ?_, h.2.2.2.2⟩
              have hn2 : idx + 2 ≤
                  (iosLoop rd ra outcomes (idx + 1) fuel (some e)
                    (delays ++ [rd * 2 ^ idx])).attempts := by
                have := h.2.2.1 (by omega)
                omega
              rw [h.2.2.2.1]
              rw [show (iosLoop rd ra outcomes (idx + 1) fuel (some e)
                  (delays ++ [rd * 2 ^ idx])).attempts - 1 - idx =
                ((iosLoop rd ra outcomes (idx + 1) fuel (some e)
                  (delays ++ [rd * 2 ^ idx])).attempts - 1 - (idx + 1)) + 1 from by omega]
              rw [List.range'_succ]
              simp [List.append_assoc]
            · rw [if_neg hf]
              have hf0 : fuel = 0 := by omega
              subst hf0
              simp only [iosLoop]
              refine ⟨Nat.le_succ idx, by exact Nat.add_le_add_left (by omega) idx,
                fun _ => Nat.le_refl _, by simp, ?_⟩
              intro e2 he2 _
              simp only [Option.getD_some, Except.error.injEq] at he2
              rw [← he2]
              simpa using ho
          · rw [if_neg hr]
            refine ⟨Nat.le_succ idx, by exact Nat.add_le_add_left (by omega) idx,
              fun _ => Nat.le_refl _, by simp, ?_⟩
            intro e2 he2 _
            simp only [Except.error.injEq] at he2
            rw [← he2]
            simpa using ho

/-- If every outcome is the same retried failure, the loop consumes all
its fuel and returns that failure. -/
lemma iosLoop_const_failure (rd : ℚ) (ra : Int) (outcomes : Nat → SwiftOutcome α)
    (e : SwiftError) (hr : swiftRetryable e = true)
    (hall : ∀ i, outcomes i = SwiftOutcome.failure e) :
    ∀ (fuel idx : Nat) (delays : List ℚ),
      (iosLoop rd ra outcomes idx fuel (some e) delays).result = Except.error e ∧
      (iosLoop rd ra outcomes idx fuel (some e) delays).attempts = idx + fuel := by
  intro fuel
  induction fuel with
  | zero =>
      intro idx delays
      simp [iosLoop]
  | succ fuel ih =>
      intro idx delays
      simp only [iosLoop, hall idx]
      rw [if_pos hr]
      by_cases hf : 0 < fuel
      · rw [if_pos hf]
        have h := ih (idx + 1) (delays ++ [rd * 2 ^ idx])
        exact ⟨h.1, by omega⟩
      · rw [if_neg hf]
        have h := ih (idx + 1) delays
        exact ⟨h.1, by omega⟩

/-! ### C3: attempt bound and last-error propagation -/

/-- C3: for every operation and every sequence of failing transport
outcomes, the Go retry wrapper makes at most `maxRetries + 1` attempts
and the iOS wrapper at most `retryAttempts` attempts (hence also at most
`retryAttempts + 1`), and whenever the final result is an error after at
least one attempt, that error is exactly the classified error of the
last attempt made — never swallowed or replaced. -/
theorem retry_bound_last_error_c3 {α β : Type} (maxRetries : Nat) (rd : ℚ) (ra : Int)
    (outG : Nat → GoOutcome α) (outS : Nat → SwiftOutcome β) :
    (doRequest maxRetries outG).2 ≤ maxRetries + 1 ∧
    (∀ e, (doRequest maxRetries outG).1 = Except.error e →
      1 ≤ (doRequest maxRetries outG).2 ∧
      outG ((doRequest maxRetries outG).2 - 1) = GoOutcome.failure e) ∧
    (iosPerformRequest rd ra outS).attempts ≤ ra.toNat ∧
    (∀ e, (iosPerformRequest rd ra outS).result = Except.error e →
      1 ≤ (iosPerformRequest rd ra outS).attempts →
      outS ((iosPerformRequest rd ra outS).attempts - 1) = SwiftOutcome.failure e) := by
  have hg := doRequestLoop_spec outG (maxRetries + 1) 0 none (Or.inl ⟨rfl, rfl⟩)
  have hs := iosLoop_spec rd ra outS ra.toNat 0 none [] (Or.inl ⟨rfl, rfl⟩)
  refine ⟨?_, ?_, ?_, ?_⟩
  · have := hg.2.1
    simpa [doRequest] using this
  · intro e he
    have h1 : 0 + 1 ≤ (doRequestLoop outG 0 (maxRetries + 1) none).2 :=
      hg.2.2.1 (by omega)
    refine ⟨by simpa [doRequest] using h1, ?_⟩
    have := hg.2.2.2 e (by simpa [doRequest] using he) (by omega)
    simpa [doRequest] using this
  · have := hs.2.1
    simpa [iosPerformRequest] using this
  · intro e he hn
    have := hs.2.2.2.2 e (by simpa [iosPerformRequest] using he)
      (by simpa [iosPerformRequest] using hn)
    simpa [iosPerformRequest] using this

/-- Attempt-outcome stream for the C3 witness (Go side): every attempt
fails with a retryable network error. -/
def goC3Stream : Nat → GoOutcome Unit :=
  fun _ => GoOutcome.failure (NewNetworkError "connection refused")

/-- Attempt-outcome stream for the C3 witness (iOS side): every attempt
fails with a retryable 500 server error. -/
def iosC3Stream : Nat → SwiftOutcome Unit :=
  fun _ => SwiftOutcome.failure (SwiftError.huefy (IOSHuefyError.serverError 500 none))

/-- Witness for C3: with `maxRetries = 1` / `retryAttempts = 3` and every
attempt failing, the bounds hold and the returned error is the failure
of the last attempt made. -/
theorem retry_bound_last_error_c3_witness :
    (doRequest 1 goC3Stream).2 ≤ 1 + 1 ∧
    1 ≤ (doRequest 1 goC3Stream).2 ∧
    goC3Stream ((doRequest 1 goC3Stream).2 - 1) =
      GoOutcome.failure (NewNetworkError "connection refused") ∧
    (iosPerformRequest 1 3 iosC3Stream).attempts ≤ (3 : Int).toNat ∧
    iosC3Stream ((iosPerformRequest 1 3 iosC3Stream).attempts - 1) =
      SwiftOutcome.failure (SwiftError.huefy (IOSHuefyError.serverError 500 none)) := by
  have h := retry_bound_last_error_c3 (α := Unit) (β := Unit) 1 1 3 goC3Stream iosC3Stream
  exact ⟨h.1, (h.2.1 _ rfl).1, (h.2.1 _ rfl).2, h.2.2.1, h.2.2.2 _ rfl (by decide)⟩

/-! ### C2: the backoff-delay schedule -/

/-- C2 (amended): in the iOS binding the delay slept before retry `n`
(`n ≥ 1`) is `retryDelay * 2^(n-1)`: the exponential schedule with the
multiplier fixed at 2 (the configuration has no multiplier field) and no
`maxDelay` cap (the configuration has no such field either). Every run
sleeps exactly `attempts - 1` delays, and the `j`-th delay (0-based)
equals `iosDelayBeforeRetry retryDelay (j+1) = retryDelay * 2^j`. -/
theorem backoff_schedule_c2 {α : Type} (rd : ℚ) (ra : Int) (outS : Nat → SwiftOutcome α) :
    (iosPerformRequest rd ra outS).delays.length =
      (iosPerformRequest rd ra outS).attempts - 1 ∧
    (∀ j, j < (iosPerformRequest rd ra outS).delays.length →
      (iosPerformRequest rd ra outS).delays[j]? = some (iosDelayBeforeRetry rd (j + 1))) := by
  have hs := iosLoop_spec rd ra outS ra.toNat 0 none [] (Or.inl ⟨rfl, rfl⟩)
  have hd : (iosPerformRequest rd ra outS).delays =
      (List.range' 0 ((iosPerformRequest rd ra outS).attempts - 1)).map
        (fun j => rd * 2 ^ j) := by
    have := hs.2.2.2.1
    simpa [iosPerformRequest] using this
  constructor
  · rw [hd]
    simp
  · intro j hj
    rw [hd] at hj ⊢
    simp only [List.length_map, List.length_range'] at hj
    rw [List.getElem?_map, List.getElem?_range' _ _ hj]
    simp [iosDelayBeforeRetry]

/-- Attempt-outcome stream for C2: every attempt fails with a retryable
500 server error, so the loop exhausts all its attempts. -/
def iosC2Stream : Nat → SwiftOutcome Unit :=
  fun _ => SwiftOutcome.failure (SwiftError.huefy (IOSHuefyError.serverError 500 (some "err")))

/-- Witness for C2: with `retryDelay = 1` and `retryAttempts = 8`, the
delay before the seventh retry is `1 * 2^6`. -/
theorem backoff_schedule_c2_witness :
    (iosPerformRequest 1 8 iosC2Stream).delays[6]? = some (iosDelayBeforeRetry 1 7) :=
  (backoff_schedule_c2 1 8 iosC2Stream).2 6 (by decide)

/-- Counterexample to C2 as stated: the iOS schedule has no `maxDelay`
cap — with `retryDelay = 1` the delay before retry 7 is 64 seconds,
while the spec formula with its default policy (baseDelay 1s, multiplier
2, maxDelay 30s) caps it at 30. -/
theorem backoff_schedule_c2_counterexample :
    (iosPerformRequest 1 8 iosC2Stream).delays[6]? = some ((1 : ℚ) * 2 ^ 6) ∧
    (1 : ℚ) * 2 ^ 6 = 64 ∧
    specBackoffDelay 1 2 30 7 = 30 ∧ ((64 : ℚ) ≠ 30) := by
  refine ⟨rfl, by norm_num, ?_, by norm_num⟩
  unfold specBackoffDelay
  norm_num

/-! ### C4: non-retryable errors propagate immediately -/

/-- C4 (amended): if the first attempt fails with a non-retryable
classified error, both bindings make exactly one transport attempt and
return that error — in particular an authentication failure (Go
`AUTHENTICATION_FAILED`, iOS `invalidApiKey`) is never retried. In Go
every dedicated 4xx error type is non-retryable; in iOS only
`invalidApiKey`, `templateNotFound` and `validationError` are — other
4xx responses map to `serverError` and are retried (see the
counterexample). -/
theorem nonretryable_propagation_c4 {α β : Type} (maxRetries : Nat) (rd : ℚ) (ra : Int)
    (outG : Nat → GoOutcome α) (outS : Nat → SwiftOutcome β) (e : GoError)
    (se : IOSHuefyError)
    (hge : outG 0 = GoOutcome.failure e) (hre : isRetryableError e = false)
    (hse : outS 0 = SwiftOutcome.failure (SwiftError.huefy se))
    (hnr : iosNonRetryable se = true) (hra : 1 ≤ ra) :
    doRequest maxRetries outG = (Except.error e, 1) ∧
    iosPerformRequest rd ra outS = ⟨Except.error (SwiftError.huefy se), 1, []⟩ ∧
    (∀ b, isRetryableError (GoError.authenticationError b) = false) ∧
    (∀ b, isRetryableError (GoError.validationError b) = false) ∧
    (∀ b k, isRetryableError (GoError.templateNotFoundError b k) = false) ∧
    (∀ b l, isRetryableError (GoError.invalidTemplateDataError b l) = false) ∧
    (∀ b r, isRetryableError (GoError.invalidRecipientError b r) = false) ∧
    (∀ b p c, isRetryableError (GoError.providerError b p c) = false) ∧
    iosNonRetryable IOSHuefyError.invalidApiKey = true := by
  refine ⟨?_, ?_, fun b => rfl, fun b => rfl, fun b k => rfl, fun b l => rfl,
    fun b r => rfl, fun b p c => rfl, rfl⟩
  · unfold doRequest
    simp only [doRequestLoop, hge]
    rw [if_neg (by simp [hre])]
  · obtain ⟨k, hk⟩ : ∃ k, ra.toNat = k + 1 := ⟨ra.toNat - 1, by omega⟩
    unfold iosPerformRequest
    rw [hk]
    simp only [iosLoop, hse]
    rw [if_neg (by simp [swiftRetryable, hnr])]

/-- Attempt-outcome stream for the C4 witness (Go side): the server
always answers 401 `AUTHENTICATION_FAILED`. -/
def goC4Stream : Nat → GoOutcome Unit :=
  fun _ => GoOutcome.failure (NewAuthenticationError "Invalid API key")

/-- Attempt-outcome stream for the C4 witness (iOS side): the server
always answers 401, classified as `invalidApiKey`. -/
def iosC4Stream : Nat → SwiftOutcome Unit :=
  fun _ => SwiftOutcome.failure (SwiftError.huefy IOSHuefyError.invalidApiKey)

/-- Witness for C4: a server that always returns 401 causes exactly one
attempt and an authentication error in both bindings. -/
theorem nonretryable_propagation_c4_witness :
    doRequest 2 goC4Stream = (Except.error (NewAuthenticationError "Invalid API key"), 1) ∧
    iosPerformRequest 1 3 iosC4Stream =
      ⟨Except.error (SwiftError.huefy IOSHuefyError.invalidApiKey), 1, []⟩ ∧
    IsAuthenticationError (NewAuthenticationError "Invalid API key") = true := by
  have h := nonretryable_propagation_c4 (α := Unit) (β := Unit) 2 1 3 goC4Stream iosC4Stream
    (NewAuthenticationError "Invalid API key") IOSHuefyError.invalidApiKey
    rfl rfl rfl rfl (by decide)
  exact ⟨h.1, h.2.1, rfl⟩

/-- Attempt-outcome stream refuting C4's general clause: the server
always answers 403 (a 4xx other than rate-limit), which iOS classifies
as `serverError`. -/
def iosC4CStream : Nat → SwiftOutcome Unit :=
  fun _ => SwiftOutcome.failure (SwiftError.huefy (IOSHuefyError.serverError 403 (some "Forbidden")))

/-- Counterexample to C4 as stated: in the iOS binding a 403 — a 4xx
other than rate-limit — is classified as `serverError` and retried:
with `retryAttempts = 3` the client makes 3 attempts, not 1. -/
theorem nonretryable_propagation_c4_counterexample :
    (iosPerformRequest 1 3 iosC4CStream).attempts = 3 ∧
    (iosPerformRequest 1 3 iosC4CStream).result =
      Except.error (SwiftError.huefy (IOSHuefyError.serverError 403 (some "Forbidden"))) ∧
    (3 : Nat) ≠ 1 :=
  ⟨rfl, rfl, by decide⟩

/-! ### C5: decoding failures on 2xx responses -/

/-- C5 (amended): in the iOS binding a decoding failure on a 2xx
response is retried like any other non-excluded error: when every
attempt fails to decode, the client makes `retryAttempts` attempts (not
one) and then surfaces the decoding error of the last attempt. -/
theorem decoding_error_retried_c5 {α : Type} (rd : ℚ) (ra : Int)
    (outS : Nat → SwiftOutcome α) (msg : String)
    (hall : ∀ i, outS i =
      SwiftOutcome.failure (SwiftError.huefy (IOSHuefyError.decodingError msg)))
    (hra : 1 ≤ ra) :
    (iosPerformRequest rd ra outS).result =
      Except.error (SwiftError.huefy (IOSHuefyError.decodingError msg)) ∧
    (iosPerformRequest rd ra outS).attempts = ra.toNat := by
  obtain ⟨k, hk⟩ : ∃ k, ra.toNat = k + 1 := ⟨ra.toNat - 1, by omega⟩
  have hr : swiftRetryable (SwiftError.huefy (IOSHuefyError.decodingError msg)) = true := rfl
  have hc := iosLoop_const_failure rd ra outS _ hr hall
  unfold iosPerformRequest
  rw [hk]
  simp only [iosLoop, hall 0]
  rw [if_pos hr]
  by_cases hf : 0 < k
  · rw [if_pos hf]
    have h := hc k (0 + 1) ([] ++ [rd * 2 ^ 0])
    exact ⟨h.1, by omega⟩
  · rw [if_neg hf]
    have h := hc k (0 + 1) []
    exact ⟨h.1, by omega⟩

/-- Attempt-outcome stream for C5's witness: every attempt yields a 2xx
whose body fails to decode. -/
def iosC5Stream : Nat → SwiftOutcome Unit :=
  fun _ => SwiftOutcome.failure (SwiftError.huefy (IOSHuefyError.decodingError "missing key"))

/-- Witness for C5: with `retryAttempts = 2` and every attempt failing
to decode, both conclusions hold at a concrete run. -/
theorem decoding_error_retried_c5_witness :
    (iosPerformRequest 1 2 iosC5Stream).result =
      Except.error (SwiftError.huefy (IOSHuefyError.decodingError "missing key")) ∧
    (iosPerformRequest 1 2 iosC5Stream).attempts = (2 : Int).toNat :=
  decoding_error_retried_c5 1 2 iosC5Stream "missing key" (fun i => rfl) (by decide)

/-- Attempt-outcome stream refuting C5 as stated. -/
def iosC5CStream : Nat → SwiftOutcome Unit :=
  fun _ => SwiftOutcome.failure (SwiftError.huefy (IOSHuefyError.decodingError "type mismatch"))

/-- Counterexample to C5 as stated: a decoding failure on a 2xx response
is retried by the iOS client — with `retryAttempts = 3` the run makes 3
transport attempts, not exactly one. -/
theorem decoding_error_retried_c5_counterexample :
    (iosPerformRequest 1 3 iosC5CStream).attempts = 3 ∧
    (iosPerformRequest 1 3 iosC5CStream).result =
      Except.error (SwiftError.huefy (IOSHuefyError.decodingError "type mismatch")) ∧
    (3 : Nat) ≠ 1 :=
  ⟨rfl, rfl, by decide⟩

/-! ### C9: zero configured retry attempts -/

/-- C9 (amended): with `retryAttempts ≤ 0` the iOS client performs zero
transport attempts and throws `HuefyError.unknown` with the message
`"Request failed after \(retryAttempts) attempts"` — which reads
`"Request failed after 0 attempts"` exactly when `retryAttempts = 0`
(for negative values the negative number appears, see the
counterexample). -/
theorem zero_retry_attempts_c9 {α : Type} (rd : ℚ) (ra : Int)
    (outS : Nat → SwiftOutcome α) (hra : ra ≤ 0) :
    iosPerformRequest rd ra outS =
      ⟨Except.error (SwiftError.huefy (IOSHuefyError.unknown
        ("Request failed after " ++ toString ra ++ " attempts"))), 0, []⟩ ∧
    (∀ tk dat recip prov (outE : Nat → SwiftOutcome IOSSendEmailResponse),
      iosSendEmail rd ra tk dat recip prov outE =
        ⟨Except.error (SwiftError.huefy (IOSHuefyError.unknown
          ("Request failed after " ++ toString ra ++ " attempts"))), 0, []⟩) ∧
    (∀ (outH : Nat → SwiftOutcome α),
      iosHealthCheck rd ra outH =
        ⟨Except.error (SwiftError.huefy (IOSHuefyError.unknown
          ("Request failed after " ++ toString ra ++ " attempts"))), 0, []⟩) := by
  have h0 : ra.toNat = 0 := Int.toNat_of_nonpos hra
  refine ⟨?_, ?_, ?_⟩
  · unfold iosPerformRequest
    rw [h0]
    rfl
  · intro tk dat recip prov outE
    unfold iosSendEmail iosPerformRequest
    rw [h0]
    rfl
  · intro outH
    unfold iosHealthCheck iosPerformRequest
    rw [h0]
    rfl

/-- Attempt-outcome stream for C9's witness: the transport would succeed,
but is never consulted. -/
def iosC9Stream : Nat → SwiftOutcome Unit := fun _ => SwiftOutcome.success ()

/-- Witness for C9 at `retryAttempts = 0`: zero attempts, and the thrown
message is exactly `"Request failed after 0 attempts"`. -/
theorem zero_retry_attempts_c9_witness :
    iosPerformRequest 1 0 iosC9Stream =
      ⟨Except.error (SwiftError.huefy (IOSHuefyError.unknown
        ("Request failed after " ++ toString (0 : Int) ++ " attempts"))), 0, []⟩ ∧
    ("Request failed after " ++ toString (0 : Int) ++ " attempts") =
      "Request failed after 0 attempts" :=
  ⟨(zero_retry_attempts_c9 1 0 iosC9Stream (by decide)).1, rfl⟩

/-- Attempt-outcome stream for C9's counterexample. -/
def iosC9CStream : Nat → SwiftOutcome Unit := fun _ => SwiftOutcome.success ()

/-- Counterexample to C9 as stated: with `retryAttempts = -1` the call
still makes zero attempts, but the message interpolates the negative
value — `"Request failed after -1 attempts"`, not
`"Request failed after 0 attempts"`. -/
theorem zero_retry_attempts_c9_counterexample :
    iosPerformRequest 1 (-1) iosC9CStream =
      ⟨Except.error (SwiftError.huefy (IOSHuefyError.unknown
        "Request failed after -1 attempts")), 0, []⟩ ∧
    "Request failed after -1 attempts" ≠ "Request failed after 0 attempts" :=
  ⟨rfl, by decide⟩

/-! ### C8: bulk-send validation -/

/-- The in-order scan of `SendBulkEmails` finds exactly the first
invalid item: if item `i` is invalid and every earlier item is valid,
the scan started at counter `k` reports index `k + i` with item `i`'s
validation error. -/
lemma firstInvalid_spec :
    ∀ (l : List SendEmailRequest) (k i : Nat) (r : SendEmailRequest) (e : GoError),
      l.get? i = some r → validateSendEmailRequest r = some e →
      (∀ j r', j < i → l.get? j = some r' → validateSendEmailRequest r' = none) →
      firstInvalid l k = some (k + i, e) := by
  intro l
  induction l with
  | nil =>
      intro k i r e hget
      exact absurd hget (by simp)
  | cons x xs ih =>
      intro k i r e hget hval hpre
      cases i with
      | zero =>
          simp only [List.get?] at hget
          cases hget
          simp [firstInvalid, hval]
      | succ i =>
          have hx : validateSendEmailRequest x = none := by
            exact hpre 0 x (by omega) rfl
          simp only [firstInvalid, hx]
          have := ih (k + 1) i r e (by simpa using hget) hval
            (fun j r' hj hg => hpre (j + 1) r' (by omega) (by simpa using hg))
          rw [this]
          congr 2
          omega

/-- C8 (amended: the message literal is "validation failed for email i",
not "item i"): `SendBulkEmails` rejects an empty slice with a
`ValidationError`, and when item `i` is the first invalid item it
returns, with zero transport attempts, a wrapping error whose message is
`"validation failed for email i: "` followed by the item's own error
rendering, wrapping that item's underlying validation error. -/
theorem bulk_validation_c8 {α : Type} (emails : List SendEmailRequest) (maxRetries : Nat)
    (outcomes : Nat → GoOutcome α) :
    (emails = [] → GoSendBulkEmails emails maxRetries outcomes =
      (Except.error (NewValidationError "emails slice cannot be empty"), 0)) ∧
    (∀ i r e, emails.get? i = some r → validateSendEmailRequest r = some e →
      (∀ j r', j < i → emails.get? j = some r' → validateSendEmailRequest r' = none) →
      GoSendBulkEmails emails maxRetries outcomes =
        (Except.error (GoError.wrapped
          ("validation failed for email " ++ toString i ++ ": " ++ goErrorMessage e) e), 0)) := by
  constructor
  · intro h
    subst h
    rfl
  · intro i r e hget hval hpre
    have hf : firstInvalid emails 0 = some (0 + i, e) :=
      firstInvalid_spec emails 0 i r e hget hval hpre
    have hne : emails.isEmpty = false := by
      cases emails with
      | nil => exact absurd hget (by simp)
      | cons x xs => rfl
    unfold GoSendBulkEmails
    rw [hne]
    simp only [Bool.false_eq_true, if_false, hf, Nat.zero_add]

/-- A valid bulk item used by C8's witness and counterexample. -/
def bulkValidItem : SendEmailRequest :=
  ⟨"welcome-email", some [("name", JsonVal.str "John")], "john@example.com", none⟩

/-- An invalid bulk item (recipient fails the email-shape check). -/
def bulkInvalidItem : SendEmailRequest :=
  ⟨"welcome-email", some [("name", JsonVal.str "Jane")], "bad", none⟩

/-- Witness for C8: the first invalid item sits at index 1; the bulk
call fails with the index-naming wrapping error and zero attempts. -/
theorem bulk_validation_c8_witness :
    GoSendBulkEmails [bulkValidItem, bulkInvalidItem] 3 (fun _ => GoOutcome.success ()) =
      (Except.error (GoError.wrapped
        ("validation failed for email " ++ toString (1 : Nat) ++ ": " ++
          goErrorMessage (NewInvalidRecipientError "invalid email address: bad"))
        (NewInvalidRecipientError "invalid email address: bad")), 0) := by
  have h := (bulk_validation_c8 [bulkValidItem, bulkInvalidItem] 3
    (fun _ => GoOutcome.success ())).2 1 bulkInvalidItem
    (NewInvalidRecipientError "invalid email address: bad") rfl rfl ?_
  · exact h
  · intro j r' hj hg
    have hj0 : j = 0 := by omega
    subst hj0
    simp only [List.get?] at hg
    cases hg
    rfl

/-- Counterexample to C8 as stated: the wrapping message reads
"validation failed for email 1: ...", not the claimed
"validation failed for item 1: ...". -/
theorem bulk_validation_c8_counterexample :
    GoSendBulkEmails [bulkValidItem, bulkInvalidItem] 3 (fun _ => GoOutcome.success ()) =
      (Except.error (GoError.wrapped
        "validation failed for email 1: Huefy API error [INVALID_RECIPIENT]: invalid email address: bad"
        (NewInvalidRecipientError "invalid email address: bad")), 0) ∧
    "validation failed for email 1: Huefy API error [INVALID_RECIPIENT]: invalid email address: bad" ≠
      "validation failed for item 1: Huefy API error [INVALID_RECIPIENT]: invalid email address: bad" :=
  ⟨rfl, by decide⟩
